import Mathlib

/-!
Verification of `wordcloudgenv5.py` (WordCloudGenv5): a tkinter GUI around a
single word-cloud library call.  The definitions below are a shallow embedding
of the Python source: tkinter `Text` widget content is modelled as the logical
string the widget holds (the `get("1.0", END)` of the widget appends one implicit
trailing newline, and `insert(END, x)` appends `x` before that implicit
newline), file-system and library effects are modelled as explicit `Except`
valued functions, and the worker/UI split is modelled by passing the UI state
at two distinct instants (thread-handoff time and worker-run time).
-/

namespace WordCloudGen

/-- Python string truthiness: a string is truthy iff it is non-empty. -/
def pyTruthy (s : String) : Bool := s ≠ ""

/-- Whitespace characters removed by Python `str.strip()` with no argument. -/
def isPySpace (c : Char) : Bool :=
  c = ' ' ∨ c = '\t' ∨ c = '\n' ∨ c = '\r' ∨ c = '\x0b' ∨ c = '\x0c'

/-- Python `str.strip()` on the underlying character list: remove trailing then
leading whitespace (the two sides are independent, so the order is immaterial). -/
def stripChars (l : List Char) : List Char :=
  ((l.reverse.dropWhile isPySpace).reverse).dropWhile isPySpace

/-- Python `str.strip()`. -/
def pyStrip (s : String) : String := String.mk (stripChars s.toList)

/-- Python `str.lower()` (on the ASCII alphabet of the words in the source). -/
def pyLower (s : String) : String := s.map Char.toLower

/-- tkinter `Text.get("1.0", END)`: the widget returns its logical content
followed by one implicit trailing newline. -/
def textGetAll (c : String) : String := c ++ "\n"

/-- tkinter `Text.insert(END, x)` on a widget with logical content `c`:
the insertion lands just before the implicit final newline, so the logical
content becomes `c ++ x`. -/
def textInsertEnd (c x : String) : String := c ++ x

/-! ### C1 — generate-button enablement (`_update_generate_button_state`,
`select_input_file`, `set_output_file`) -/

/-- The UI state the enablement logic touches: the two path `StringVar`s and
the enabled flag of the generate button. -/
structure PathState where
  inputPath : String
  outputPath : String
  generateEnabled : Bool
  deriving DecidableEq, Repr

/-- Embeds `WordCloudApp._update_generate_button_state`:
`if self.input_file_path.get() and self.output_file_path.get(): enable else disable`. -/
def updateGenerateButtonState (s : PathState) : PathState :=
  if pyTruthy s.inputPath && pyTruthy s.outputPath then
    { s with generateEnabled := true }
  else
    { s with generateEnabled := false }

/-- Embeds `WordCloudApp.select_input_file`: when the dialog returns a truthy path,
store it and refresh the enablement; otherwise do nothing. -/
def selectInputFile (s : PathState) (path : String) : PathState :=
  if pyTruthy path then
    updateGenerateButtonState { s with inputPath := path }
  else s

/-- Embeds `WordCloudApp.set_output_file`: when the dialog returns a truthy path,
store it and refreshes the enablement; otherwise do nothing. -/
def setOutputFile (s : PathState) (path : String) : PathState :=
  if pyTruthy path then
    updateGenerateButtonState { s with outputPath := path }
  else s

theorem updateGenerateButtonState_inputPath (s : PathState) :
    (updateGenerateButtonState s).inputPath = s.inputPath := by
  unfold updateGenerateButtonState
  split <;> rfl

theorem updateGenerateButtonState_outputPath (s : PathState) :
    (updateGenerateButtonState s).outputPath = s.outputPath := by
  unfold updateGenerateButtonState
  split <;> rfl

theorem updateGenerateButtonState_enabled_iff (s : PathState) :
    (updateGenerateButtonState s).generateEnabled = true ↔
      s.inputPath ≠ "" ∧ s.outputPath ≠ "" := by
  unfold updateGenerateButtonState pyTruthy
  constructor
  · intro h
    by_cases h1 : s.inputPath = "" <;> by_cases h2 : s.outputPath = "" <;>
      simp [h1, h2] at h ⊢
  · intro h
    simp [h.1, h.2]

/-- Claim C1: after any path update the generate action is enabled iff both
paths are non-empty, and re-running the enablement update with the same pair
changes nothing (idempotence). -/
theorem c1_generate_enablement (s : PathState) (p : String) (hp : p ≠ "") :
    ((selectInputFile s p).generateEnabled = true ↔
        (selectInputFile s p).inputPath ≠ "" ∧ (selectInputFile s p).outputPath ≠ "") ∧
    ((setOutputFile s p).generateEnabled = true ↔
        (setOutputFile s p).inputPath ≠ "" ∧ (setOutputFile s p).outputPath ≠ "") ∧
    ((updateGenerateButtonState s).generateEnabled = true ↔
        s.inputPath ≠ "" ∧ s.outputPath ≠ "") ∧
    updateGenerateButtonState (updateGenerateButtonState s) = updateGenerateButtonState s := by
  have htruthy : pyTruthy p = true := by
    unfold pyTruthy
    simp [hp]
  refine ⟨?_, ?_, updateGenerateButtonState_enabled_iff s, ?_⟩
  · unfold selectInputFile
    rw [htruthy]
    simp only [if_pos]
    rw [updateGenerateButtonState_enabled_iff, updateGenerateButtonState_inputPath,
      updateGenerateButtonState_outputPath]
  · unfold setOutputFile
    rw [htruthy]
    simp only [if_pos]
    rw [updateGenerateButtonState_enabled_iff, updateGenerateButtonState_inputPath,
      updateGenerateButtonState_outputPath]
  · unfold updateGenerateButtonState
    by_cases h1 : pyTruthy s.inputPath && pyTruthy s.outputPath <;> simp [h1]

/-- Witness for C1 at a concrete state and path. -/
theorem c1_generate_enablement_witness :
    ((selectInputFile ⟨"", "out.png", false⟩ "in.txt").generateEnabled = true ↔
        (selectInputFile ⟨"", "out.png", false⟩ "in.txt").inputPath ≠ "" ∧
          (selectInputFile ⟨"", "out.png", false⟩ "in.txt").outputPath ≠ "") ∧
    ((setOutputFile ⟨"", "out.png", false⟩ "in.txt").generateEnabled = true ↔
        (setOutputFile ⟨"", "out.png", false⟩ "in.txt").inputPath ≠ "" ∧
          (setOutputFile ⟨"", "out.png", false⟩ "in.txt").outputPath ≠ "") ∧
    ((updateGenerateButtonState ⟨"", "out.png", false⟩).generateEnabled = true ↔
        ("" : String) ≠ "" ∧ ("out.png" : String) ≠ "") ∧
    updateGenerateButtonState (updateGenerateButtonState ⟨"", "out.png", false⟩) =
      updateGenerateButtonState ⟨"", "out.png", false⟩ :=
  c1_generate_enablement ⟨"", "out.png", false⟩ "in.txt" (by decide)

/-! ### C3 / C4 — settings store (`_load_settings`, `_save_settings`,
`__init__` defaulting) -/

/-- The on-disk settings file, as the load path distinguishes its states:
missing (`FileNotFoundError`), not valid JSON (`json.JSONDecodeError`), or a
parsed JSON object.  The object is modelled by the two keys the program ever
reads, each possibly absent (`dict.get` supplies the default). -/
structure SettingsDict where
  dark_mode : Option Bool
  exclusion_list : Option String
  deriving DecidableEq, Repr

inductive SettingsFile where
  | missing : SettingsFile
  | malformed : SettingsFile
  | wellFormed : SettingsDict → SettingsFile
  deriving DecidableEq, Repr

/-- Embeds `WordCloudApp._load_settings`: `json.load` of the file, with
`FileNotFoundError` and `json.JSONDecodeError` both caught and turned into the
empty dict `{}`.  Total: no exception escapes for these file states. -/
def loadSettingsDict : SettingsFile → SettingsDict
  | SettingsFile.missing => ⟨none, none⟩
  | SettingsFile.malformed => ⟨none, none⟩
  | SettingsFile.wellFormed d => d

/-- The built-in default exclusion word list
(`WordCloudApp.default_exclusion_words`). -/
def defaultExclusionWords : List String :=
  ["author", "post", "content", "reddit", "score", "url", "subreddit", "title",
   "Steam", "Comment", "https", "Comments", "u", "account",
   "comments", "csgomarketforum", "SteamScams", "scam", "trade", "support",
   "png", "game", "csgo", "redd", "got", "skin", "item", "S",
   "will", "items", "one", "someone", "know", "scammed", "guy", "people"]

/-- The settings the application actually runs with. -/
structure AppSettings where
  darkMode : Bool
  exclusionListText : String
  deriving DecidableEq, Repr

/-- Embeds `WordCloudApp.__init__` lines reading the loaded dict:
`settings.get("exclusion_list", "\n".join(self.default_exclusion_words))` and
`settings.get("dark_mode", False)`. -/
def settingsFromDict (d : SettingsDict) : AppSettings :=
  { darkMode := d.dark_mode.getD false,
    exclusionListText := d.exclusion_list.getD (String.intercalate "\n" defaultExclusionWords) }

/-- Embeds `WordCloudApp._save_settings`: writes
`{"dark_mode": <switch state>, "exclusion_list": <widget text>.strip()}`,
where the widget text is `exclusion_text.get("1.0", END)`. -/
def saveSettings (darkModeSelected : Bool) (widgetContent : String) : SettingsDict :=
  { dark_mode := some darkModeSelected,
    exclusion_list := some (pyStrip (textGetAll widgetContent)) }

theorem isPySpace_newline : isPySpace '\n' = true := by decide

/-- Stripping is unaffected by the implicit trailing newline the Text widget
appends to its content. -/
theorem stripChars_append_newline (l : List Char) :
    stripChars (l ++ ['\n']) = stripChars l := by
  unfold stripChars
  rw [List.reverse_append, List.reverse_singleton, List.singleton_append,
    List.dropWhile_cons_of_pos isPySpace_newline]

theorem pyStrip_textGetAll (c : String) : pyStrip (textGetAll c) = pyStrip c := by
  unfold pyStrip textGetAll
  have h : (c ++ "\n").toList = c.toList ++ ['\n'] := by
    simp [String.toList, String.data_append]
  rw [h, stripChars_append_newline]

/-- Claim C3: when the settings file is missing or does not hold valid JSON,
loading yields `darkMode = false` and the default word list joined by
newlines, with both failure modes caught (the load function is total on
these states). -/
theorem c3_load_defaults (f : SettingsFile)
    (h : f = SettingsFile.missing ∨ f = SettingsFile.malformed) :
    settingsFromDict (loadSettingsDict f) =
      ⟨false, String.intercalate "\n" defaultExclusionWords⟩ := by
  rcases h with h | h <;> subst h <;> rfl

/-- Witness for C3 at the missing-file state. -/
theorem c3_load_defaults_witness :
    settingsFromDict (loadSettingsDict SettingsFile.missing) =
      ⟨false, String.intercalate "\n" defaultExclusionWords⟩ :=
  c3_load_defaults SettingsFile.missing (Or.inl rfl)

/-- Claim C4: the save-then-load round trip returns the saved settings, up to
trimming of leading/trailing whitespace on the exclusion-list text. -/
theorem c4_save_load_round_trip (s : AppSettings) :
    settingsFromDict
        (loadSettingsDict (SettingsFile.wellFormed (saveSettings s.darkMode s.exclusionListText))) =
      ⟨s.darkMode, pyStrip s.exclusionListText⟩ := by
  unfold settingsFromDict loadSettingsDict saveSettings
  simp [pyStrip_textGetAll]

/-! ### C5 — stopword construction and fixed renderer parameters
(`generate_word_cloud`) -/

/-- The custom exclusion words derived from the exclusion text widget:
`[word.strip().lower() for word in exclusion_text.get("1.0", END).split("\n")
if word.strip()]`. -/
def customExclusionList (widgetContent : String) : List String :=
  ((textGetAll widgetContent).splitOn "\n").filterMap fun w =>
    if pyStrip w = "" then none else some (pyLower (pyStrip w))

/-- Embeds `stopwords = set(STOPWORDS); stopwords.update(custom_exclusion_list)`:
the union, modelled as list concatenation read up to membership. -/
def buildStopwords (standard : List String) (widgetContent : String) : List String :=
  standard ++ customExclusionList widgetContent

/-- The keyword arguments of the `WordCloud(...)` constructor call. -/
structure WordCloudParams where
  stopwords : List String
  background_color : String
  width : Nat
  height : Nat
  max_words : Nat
  collocations : Bool
  deriving Repr

/-- Embeds `WordCloud(stopwords=stopwords, background_color="white", width=1600,
height=800, max_words=200, collocations=False)`. -/
def wordCloudCall (standard : List String) (widgetContent : String) : WordCloudParams :=
  { stopwords := buildStopwords standard widgetContent,
    background_color := "white",
    width := 1600,
    height := 800,
    max_words := 200,
    collocations := false }

theorem customExclusionList_mem (c w : String) :
    w ∈ customExclusionList c ↔
      ∃ line ∈ (textGetAll c).splitOn "\n",
        pyStrip line ≠ "" ∧ w = pyLower (pyStrip line) := by
  unfold customExclusionList
  simp only [List.mem_filterMap]
  constructor
  · rintro ⟨a, ha, hfa⟩
    by_cases h : pyStrip a = ""
    · simp [h] at hfa
    · simp only [h, if_false] at hfa
      exact ⟨a, ha, h, (Option.some.inj hfa).symm⟩
  · rintro ⟨a, ha, h, rfl⟩
    exact ⟨a, ha, by simp [h]⟩

/-- Claim C5: the renderer is invoked with a white background, a 1600×800
canvas, at most 200 words, collocations disabled, and a stopword set that is
the union of the standard set and the custom words of the user, each trimmed and
lower-cased with blank lines dropped. -/
theorem c5_stopwords_and_fixed_params (standard : List String) (c : String) :
    (wordCloudCall standard c).background_color = "white" ∧
    (wordCloudCall standard c).width = 1600 ∧
    (wordCloudCall standard c).height = 800 ∧
    (wordCloudCall standard c).max_words = 200 ∧
    (wordCloudCall standard c).collocations = false ∧
    ∀ w, w ∈ (wordCloudCall standard c).stopwords ↔
      w ∈ standard ∨
        ∃ line ∈ (textGetAll c).splitOn "\n",
          pyStrip line ≠ "" ∧ w = pyLower (pyStrip line) := by
  refine ⟨rfl, rfl, rfl, rfl, rfl, fun w => ?_⟩
  show w ∈ buildStopwords standard c ↔ _
  unfold buildStopwords
  rw [List.mem_append, customExclusionList_mem]

/-! ### C6 — exclusion-list import (`import_exclusion_list`) -/

/-- Embeds `import_exclusion_list` after a successful read of content `w`, acting on
the logical widget content `c`:
`current_text = exclusion_text.get("1.0", END).strip()`; if that is truthy the
code inserts `"\n" + w` at `END`, otherwise it inserts `w` at `END`. -/
def importExclusion (c w : String) : String :=
  if pyTruthy (pyStrip (textGetAll c)) then textInsertEnd c ("\n" ++ w)
  else textInsertEnd c w

/-- Claim C6 as stated: on empty current text the result is exactly `w`; on
non-empty current text the result is the current text, one newline, then `w`. -/
def c6ClaimStatement : Prop :=
  ∀ c w : String, importExclusion c w = if c = "" then w else c ++ "\n" ++ w

/-- Counterexample to C6 as stated: with current text `" "` (a single space,
non-empty) and import content `"a"`, the code checks the stripped current
text, finds it empty, and appends with no separating newline, producing
`" a"` where the claim requires `" \na"`. -/
theorem c6_counterexample : ¬ c6ClaimStatement := by
  intro h
  have h1 := h " " "a"
  rw [if_neg (by decide : ¬(" " : String) = "")] at h1
  have h2 : importExclusion " " "a" = " a" := by decide
  rw [h2] at h1
  exact absurd h1 (by decide)

/-- Claim C6 amended: emptiness of the current text is judged after stripping
whitespace.  If the stripped current text is empty the imported content is
appended directly (which is exactly `w` when the current text is itself
empty); if the stripped current text is non-empty the result is the current
text, exactly one separating newline, then `w`. -/
theorem c6_import_amended (c w : String) :
    (pyStrip c = "" → importExclusion c w = c ++ w) ∧
    (pyStrip c ≠ "" → importExclusion c w = c ++ "\n" ++ w) ∧
    (c = "" → importExclusion c w = w) := by
  unfold importExclusion textInsertEnd
  rw [pyStrip_textGetAll]
  refine ⟨fun h => ?_, fun h => ?_, fun h => ?_⟩
  · rw [if_neg]
    unfold pyTruthy
    simp [h]
  · rw [if_pos, String.append_assoc]
    unfold pyTruthy
    simp [h]
  · subst h
    rw [if_neg]
    · exact String.empty_append w
    · unfold pyTruthy pyStrip stripChars
      simp [String.toList]

/-- Witness for C6 amended, at non-blank and at empty current text. -/
theorem c6_import_amended_witness :
    importExclusion "cat" "dog" = "cat" ++ "\n" ++ "dog" ∧
    importExclusion "" "dog" = "dog" :=
  ⟨(c6_import_amended "cat" "dog").2.1 (by decide),
   (c6_import_amended "" "dog").2.2 rfl⟩

/-! ### C9 — frame effects of import/clear on paths and enablement -/

/-- The application state touched by the exclusion-list operations together
with the path/enablement state they must leave alone. -/
structure AppState where
  inputPath : String
  outputPath : String
  generateEnabled : Bool
  exclusionText : String
  deriving DecidableEq, Repr

/-- Embeds `import_exclusion_list` at the application level: a failed read shows an
error dialog and changes nothing; a successful read of `w` rewrites only the
exclusion text.  (A cancelled file dialog returns before touching anything.)
Neither branch calls `_update_generate_button_state` or the path variables. -/
def importExclusionListApp (s : AppState) (readResult : Except String String) : AppState :=
  match readResult with
  | Except.error _ => s
  | Except.ok w => { s with exclusionText := importExclusion s.exclusionText w }

/-- Embeds `clear_exclusion_list`: `exclusion_text.delete("1.0", END)` empties the
widget and touches nothing else. -/
def clearExclusionListApp (s : AppState) : AppState :=
  { s with exclusionText := "" }

/-- Claim C9: importing (whatever the read outcome) and clearing the exclusion
list leave the input path, the output path, and the enabled state of the generate
button unchanged. -/
theorem c9_import_clear_frame (s : AppState) (readResult : Except String String) :
    (importExclusionListApp s readResult).inputPath = s.inputPath ∧
    (importExclusionListApp s readResult).outputPath = s.outputPath ∧
    (importExclusionListApp s readResult).generateEnabled = s.generateEnabled ∧
    (clearExclusionListApp s).inputPath = s.inputPath ∧
    (clearExclusionListApp s).outputPath = s.outputPath ∧
    (clearExclusionListApp s).generateEnabled = s.generateEnabled := by
  cases readResult <;> exact ⟨rfl, rfl, rfl, rfl, rfl, rfl⟩

/-! ### C2 — worker error boundary (`_threaded_generate`, `generate_word_cloud`) -/

/-- The environment `generate_word_cloud` runs in: the UI values it reads and
the three effectful steps (file read, library render, figure save), each of
which may fail with a Python exception modelled as its message string. -/
structure GenEnv where
  inputPath : String
  outputPath : String
  exclusionText : String
  readFile : String → Except String String
  renderCloud : WordCloudParams → String → Except String Unit
  savePlot : String → Except String Unit
  standardStopwords : List String

/-- Embeds `WordCloudApp.generate_word_cloud`: read the input file, build the
stopword set and the fixed renderer parameters, render, save the figure, and
return the output path.  An exception in any step aborts the sequence. -/
def generateWordCloud (env : GenEnv) : Except String String :=
  match env.readFile env.inputPath with
  | Except.error e => Except.error e
  | Except.ok text =>
    match env.renderCloud (wordCloudCall env.standardStopwords env.exclusionText) text with
    | Except.error e => Except.error e
    | Except.ok _ =>
      match env.savePlot env.outputPath with
      | Except.error e => Except.error e
      | Except.ok _ => Except.ok env.outputPath

/-- The result dict `_threaded_generate` hands to `on_generation_complete`:
`{"status": "success", "path": ...}` or `{"status": "error", "message": ...}`. -/
inductive GenResult where
  | success : String → GenResult
  | failure : String → GenResult
  deriving DecidableEq, Repr

/-- Embeds `WordCloudApp._threaded_generate`: `try: ... except Exception as e:` —
the whole generation sequence under one handler that converts any exception
into a failure result carrying `str(e)`. -/
def threadedGenerate (env : GenEnv) : GenResult :=
  match generateWordCloud env with
  | Except.ok p => GenResult.success p
  | Except.error m => GenResult.failure m

theorem generateWordCloud_ok_eq (env : GenEnv) (p : String)
    (h : generateWordCloud env = Except.ok p) : p = env.outputPath := by
  unfold generateWordCloud at h
  split at h
  · exact absurd h (by simp)
  · split at h
    · exact absurd h (by simp)
    · split at h
      · exact absurd h (by simp)
      · exact (Except.ok.inj h).symm

theorem generateWordCloud_read_error (env : GenEnv) (m : String)
    (h : env.readFile env.inputPath = Except.error m) :
    generateWordCloud env = Except.error m := by
  unfold generateWordCloud
  rw [h]

/-- Claim C2: every exception inside the generation sequence becomes a
`failure` carrying the message, a successful run yields `success` with the
output path, the worker function is total (always yields one of the two
results — nothing propagates out), and in particular a failing input-file
read surfaces as a failure carrying the message of that read. -/
theorem c2_worker_boundary (env : GenEnv) :
    (∀ m, generateWordCloud env = Except.error m →
        threadedGenerate env = GenResult.failure m) ∧
    (∀ p, generateWordCloud env = Except.ok p →
        p = env.outputPath ∧ threadedGenerate env = GenResult.success env.outputPath) ∧
    ((∃ p, threadedGenerate env = GenResult.success p) ∨
      (∃ m, threadedGenerate env = GenResult.failure m)) ∧
    (∀ m, env.readFile env.inputPath = Except.error m →
        threadedGenerate env = GenResult.failure m) := by
  refine ⟨fun m hm => ?_, fun p hp => ?_, ?_, fun m hm => ?_⟩
  · unfold threadedGenerate
    rw [hm]
  · have he := generateWordCloud_ok_eq env p hp
    subst he
    refine ⟨rfl, ?_⟩
    unfold threadedGenerate
    rw [hp]
  · unfold threadedGenerate
    cases generateWordCloud env with
    | ok p => exact Or.inl ⟨p, rfl⟩
    | error m => exact Or.inr ⟨m, rfl⟩
  · unfold threadedGenerate
    rw [generateWordCloud_read_error env m hm]

/-- A run whose input file is missing: `open` raises `FileNotFoundError`. -/
def envMissingInput : GenEnv :=
  { inputPath := "missing.txt",
    outputPath := "out.png",
    exclusionText := "",
    readFile := fun _ => Except.error "[Errno 2] No such file or directory: missing.txt",
    renderCloud := fun _ _ => Except.ok (),
    savePlot := fun _ => Except.ok (),
    standardStopwords := [] }

/-- Witness for C2: the missing-input run produces a failure result carrying
the I/O message. -/
theorem c2_worker_boundary_witness :
    threadedGenerate envMissingInput =
      GenResult.failure "[Errno 2] No such file or directory: missing.txt" :=
  (c2_worker_boundary envMissingInput).2.2.2
    "[Errno 2] No such file or directory: missing.txt" rfl

/-! ### C8 — thread handoff and what the worker reads
(`start_generation_thread`, `_threaded_generate`, `generate_word_cloud`) -/

/-- Embeds the `start_generation_thread` line:
`threading.Thread(target=self._threaded_generate, daemon=True)` — the thread
is created with no argument tuple, so no copy of the paths or of the
exclusion text travels with the handoff. -/
def threadHandoffPayload : AppState → Option AppState := fun _ => none

/-- The UI values the worker ends up using: the snapshot if one was passed at
handoff, otherwise the shared state as it is when the worker calls
`input_file_path.get()`, `output_file_path.get()` and
`exclusion_text.get("1.0", END)` execute on the background thread. -/
def workerEnv (handoffState runState : AppState)
    (fs : String → Except String String)
    (render : WordCloudParams → String → Except String Unit)
    (save : String → Except String Unit) (std : List String) : GenEnv :=
  let uiRead :=
    match threadHandoffPayload handoffState with
    | some snap => snap
    | none => runState
  { inputPath := uiRead.inputPath,
    outputPath := uiRead.outputPath,
    exclusionText := uiRead.exclusionText,
    readFile := fs,
    renderCloud := render,
    savePlot := save,
    standardStopwords := std }

/-- One generation run, distinguishing the UI state at thread handoff from
the UI state when the worker body actually executes. -/
def runGenerationFlow (handoffState runState : AppState)
    (fs : String → Except String String)
    (render : WordCloudParams → String → Except String Unit)
    (save : String → Except String Unit) (std : List String) : GenResult :=
  threadedGenerate (workerEnv handoffState runState fs render save std)

/-- Claim C8 as stated: the request data is snapshotted on the UI thread
before handoff, so the outcome of the run is as if the worker saw the
handoff-time state. -/
def c8ClaimStatement : Prop :=
  ∀ (handoffState runState : AppState)
    (fs : String → Except String String)
    (render : WordCloudParams → String → Except String Unit)
    (save : String → Except String Unit) (std : List String),
    runGenerationFlow handoffState runState fs render save std =
      runGenerationFlow handoffState handoffState fs render save std

/-- Counterexample to C8: change the input path between handoff and worker
execution; the worker reads the live state, so the outcome tracks the
run-time path, not the handoff-time path. -/
theorem c8_counterexample : ¬ c8ClaimStatement := by
  intro h
  have h1 :=
    h ⟨"a.txt", "o.png", true, ""⟩ ⟨"b.txt", "o.png", true, ""⟩
      (fun p => if p = "a.txt" then Except.error "cannot read a.txt"
                else Except.error "cannot read b.txt")
      (fun _ _ => Except.ok ()) (fun _ => Except.ok ()) []
  exact absurd h1 (by decide)

/-- Claim C8 amended: no snapshot is taken at handoff (the thread carries no
request payload), and the worker reads the shared UI state at run time on the
background thread: the outcome of the run is a function of the run-time state
alone, independent of the handoff-time state. -/
theorem c8_amended (handoffA handoffB runState : AppState)
    (fs : String → Except String String)
    (render : WordCloudParams → String → Except String Unit)
    (save : String → Except String Unit) (std : List String) :
    threadHandoffPayload handoffA = none ∧
    runGenerationFlow handoffA runState fs render save std =
      runGenerationFlow handoffB runState fs render save std :=
  ⟨rfl, rfl⟩

/-! ### C7 — button event semantics (`RoundedButton._on_press`,
`_on_release`, `disable`, `enable`) -/

/-- The events a `RoundedButton` reacts to: the four bound pointer events and
the two programmatic state changes. -/
inductive BtnEvent where
  | enter : BtnEvent
  | leave : BtnEvent
  | press : BtnEvent
  | release : BtnEvent
  | enable : BtnEvent
  | disable : BtnEvent
  deriving DecidableEq, Repr

/-- Effect of one event on the `self.disabled` flag: only `enable()` /
`disable()` change it; pointer handlers never do. -/
def btnStep (disabledFlag : Bool) (e : BtnEvent) : Bool :=
  match e with
  | BtnEvent.enable => false
  | BtnEvent.disable => true
  | _ => disabledFlag

/-- The `disabled` flag just before processing event `i` of the trace. -/
def disabledBefore (init : Bool) (tr : List BtnEvent) (i : Nat) : Bool :=
  (tr.take i).foldl btnStep init

/-- Whether processing one event runs the callback: `_on_release` calls
`self.command()` when `not self.disabled`; no other handler ever does. -/
def eventFires (disabledFlag : Bool) (e : BtnEvent) : Bool :=
  match e with
  | BtnEvent.release => !disabledFlag
  | _ => false

/-- Whether the callback fires at position `i` of the trace. -/
def firedAt (init : Bool) (tr : List BtnEvent) (i : Nat) : Bool :=
  eventFires (disabledBefore init tr i) (tr.getD i BtnEvent.enter)

/-- Toolkit well-formedness: a release event is only delivered to the widget
the matching press happened on, so every release has an earlier press. -/
def releaseHasPriorPress (tr : List BtnEvent) : Bool :=
  (List.range tr.length).all fun i =>
    !(decide (tr.getD i BtnEvent.enter = BtnEvent.release)) ||
      (List.range i).any fun j => decide (tr.getD j BtnEvent.enter = BtnEvent.press)

/-- Whether some press strictly before position `i` happened while enabled. -/
def pressWhileEnabledBefore (init : Bool) (tr : List BtnEvent) (i : Nat) : Bool :=
  (List.range i).any fun j =>
    decide (tr.getD j BtnEvent.enter = BtnEvent.press) && !(disabledBefore init tr j)

/-- Claim C7 as stated: on any well-formed trace, the callback fires only
when a press occurred while the button was enabled before the firing
release. -/
def c7ClaimStatement : Prop :=
  ∀ (tr : List BtnEvent) (i : Nat),
    releaseHasPriorPress tr = true →
    firedAt false tr i = true →
    pressWhileEnabledBefore false tr i = true

/-- Counterexample to C7 as stated: on the trace
`[disable, press, enable, release]` the sole press happens while disabled,
yet the release finds the button enabled and fires the callback — the
enabled check happens at release time only. -/
theorem c7_counterexample : ¬ c7ClaimStatement := by
  intro h
  exact absurd
    (h [BtnEvent.disable, BtnEvent.press, BtnEvent.enable, BtnEvent.release] 3
      (by decide) (by decide))
    (by decide)

/-- Claim C7 amended: the callback fires exactly on a release event processed
while the button is enabled (the toolkit guarantees a release follows a press
on the widget, but the press is not required to have happened while enabled);
while disabled no event fires the callback, and a press alone never fires
it. -/
theorem c7_release_fires_amended (init : Bool) (tr : List BtnEvent) (i : Nat) :
    (firedAt init tr i = true ↔
      tr.getD i BtnEvent.enter = BtnEvent.release ∧
        disabledBefore init tr i = false) ∧
    (disabledBefore init tr i = true → firedAt init tr i = false) ∧
    (tr.getD i BtnEvent.enter = BtnEvent.press → firedAt init tr i = false) := by
  unfold firedAt
  cases he : tr.getD i BtnEvent.enter <;>
    cases hd : disabledBefore init tr i <;>
      simp [eventFires, he, hd]

/-- Witness for C7 amended: on `[press, release]` the callback fires at the
release when the button starts enabled, and does not when it starts
disabled. -/
theorem c7_release_fires_amended_witness :
    firedAt false [BtnEvent.press, BtnEvent.release] 1 = true ∧
    firedAt true [BtnEvent.press, BtnEvent.release] 1 = false :=
  ⟨((c7_release_fires_amended false [BtnEvent.press, BtnEvent.release] 1).1).mpr
      ⟨rfl, rfl⟩,
   (c7_release_fires_amended true [BtnEvent.press, BtnEvent.release] 1).2.1 rfl⟩

/-! ### C10 — deferred repaint before layout (`RoundedButton.draw`) -/

/-- The color fields a `RoundedButton` holds. -/
structure BtnColors where
  bg : String
  hover : String
  pressed : String
  disabledFill : String
  deriving DecidableEq, Repr

/-- What one call to `RoundedButton.draw(color)` does.  `deferred a` records
that the repaint was re-scheduled via `self.after(10, self.draw)` with retry
argument `a`; `painted c` records the fill color actually painted. -/
inductive DrawOutcome where
  | deferred : Option String → DrawOutcome
  | painted : String → DrawOutcome
  deriving DecidableEq, Repr

/-- Embeds `RoundedButton.draw`: before layout (`winfo_width() <= 1 or
winfo_height() <= 1`) it re-schedules `self.draw` — with no argument — and
returns; otherwise it paints the disabled color when disabled, else the
truthy `color` argument when one was passed, else the normal background. -/
def draw (colors : BtnColors) (disabledFlag : Bool) (width height : Nat)
    (color : Option String) : DrawOutcome :=
  if width ≤ 1 || height ≤ 1 then DrawOutcome.deferred none
  else
    DrawOutcome.painted
      (if disabledFlag then colors.disabledFill
       else
         match color with
         | some c => if c = "" then colors.bg else c
         | none => colors.bg)

/-- Claim C10: a draw call made before layout defers with no color argument,
so the retry — whatever the disabled flag is by then — paints the normal (or
disabled) background color and the originally requested state color is
discarded. -/
theorem c10_deferred_draw_drops_color (colors : BtnColors)
    (d dretry : Bool) (w h wretry hretry : Nat) (color : Option String)
    (hsmall : w ≤ 1 ∨ h ≤ 1) (hw : 1 < wretry) (hh : 1 < hretry) :
    draw colors d w h color = DrawOutcome.deferred none ∧
    draw colors dretry wretry hretry none =
      DrawOutcome.painted (if dretry then colors.disabledFill else colors.bg) := by
  constructor
  · unfold draw
    rcases hsmall with hsmall | hsmall <;> simp [hsmall]
  · unfold draw
    rw [if_neg]
    simp [Nat.not_le.mpr hw, Nat.not_le.mpr hh]

/-- Witness for C10: a pre-layout hover repaint of a 1×1-pixel button defers
and its retry paints the plain background. -/
theorem c10_deferred_draw_drops_color_witness :
    draw ⟨"#4CAF50", "#5a9a5d", "#3e8e41", "#a0a0a0"⟩ false 1 1 (some "#5a9a5d") =
      DrawOutcome.deferred none ∧
    draw ⟨"#4CAF50", "#5a9a5d", "#3e8e41", "#a0a0a0"⟩ false 120 40 none =
      DrawOutcome.painted
        (if false then ("#a0a0a0" : String) else "#4CAF50") :=
  c10_deferred_draw_drops_color ⟨"#4CAF50", "#5a9a5d", "#3e8e41", "#a0a0a0"⟩
    false false 1 1 120 40 (some "#5a9a5d") (Or.inl (by decide))
    (by decide) (by decide)

end WordCloudGen
